import Mathlib

/-!
Shallow embedding of the `event-driven` notification service
(Express handler, in-process EventEmitter, TypeORM-backed store).

Source files embedded:
- `src/controllers/notification.controller.ts` (`createNotification`)
- `src/events/notification.event.ts` (the `"newNotification"` listener)
- `src/entities/Notification.ts` (the `Notification` entity)
- `src/server.ts` (`startServer`)

Request bodies are parsed JSON, so a field can hold any JSON value;
`JsValue` models the runtime values the handler can see, and `truthy`
models JavaScript truthiness as used by `if (!message || !type)`.
The store is a list of rows plus an auto-increment counter; the insert
performed by `repo.save` may fail, which the listener does not catch.
-/

namespace EventDriven

/-- A JavaScript runtime value as it can appear in a parsed JSON body.
`obj` stands for any object or array value (always truthy). -/
inductive JsValue where
  | null : JsValue
  | bool : Bool → JsValue
  | num : Int → JsValue
  | str : String → JsValue
  | obj : JsValue
deriving DecidableEq, Repr

/-- JavaScript truthiness of a value: `null`, `false`, `0` and `""`
are falsy, everything else here is truthy. -/
def truthy : JsValue → Bool
  | .null => false
  | .bool b => b
  | .num n => if n = 0 then false else true
  | .str s => if s = "" then false else true
  | .obj => true

/-- Truthiness of a destructured field: an absent field is `undefined`,
which is falsy. -/
def truthyField : Option JsValue → Bool
  | none => false
  | some v => truthy v

/-- The request body as the controller sees it after
`const \x7b message, type \x7d = req.body`. -/
structure ReqBody where
  message : Option JsValue
  type : Option JsValue
deriving DecidableEq, Repr

/-- The JSON body of a handler response: either
`\x7b error: ... \x7d` or `\x7b message: ... \x7d`. -/
inductive RespBody where
  | error : String → RespBody
  | message : String → RespBody
deriving DecidableEq, Repr

/-- An HTTP response: status code and JSON body. -/
structure HttpResponse where
  status : Nat
  body : RespBody
deriving DecidableEq, Repr

/-- Result of running the controller: the response it sends, and the
`"newNotification"` event payload it emits, if any. -/
structure HandlerResult where
  response : HttpResponse
  emitted : Option (JsValue × JsValue)
deriving DecidableEq, Repr

/-- `NotificationController.createNotification`
(`src/controllers/notification.controller.ts`): destructures
`message` and `type`, rejects with 400 when `!message || !type`,
otherwise emits `"newNotification"` with the two values and
responds 201. -/
def createNotification (req : ReqBody) : HandlerResult :=
  match req.message, req.type with
  | some m, some t =>
    if truthy m && truthy t then
      { response := ⟨201, .message "Notification event triggered"⟩
        emitted := some (m, t) }
    else
      { response := ⟨400, .error "Message and type are required"⟩
        emitted := none }
  | _, _ =>
      { response := ⟨400, .error "Message and type are required"⟩
        emitted := none }

/-- The `Notification` entity (`src/entities/Notification.ts`):
`id` is the store-assigned primary key, `createdAt` the
store-assigned insert timestamp. -/
structure Notification where
  id : Nat
  message : JsValue
  type : JsValue
  createdAt : Nat
deriving DecidableEq, Repr

/-- The relational store: the persisted rows and the auto-increment
counter backing `@PrimaryGeneratedColumn`. -/
structure StoreState where
  rows : List Notification
  nextId : Nat
deriving DecidableEq, Repr

/-- A successful `repo.save` on a fresh entity: one INSERT appending a
row whose `id` and `createdAt` the store assigns. -/
def save (st : StoreState) (msg ty : JsValue) (now : Nat) : StoreState :=
  { rows := st.rows ++ [{ id := st.nextId, message := msg, type := ty, createdAt := now }]
    nextId := st.nextId + 1 }

/-- A persistence failure (store unreachable, write rejected). -/
inductive StoreError where
  | saveFailed : StoreError
deriving DecidableEq, Repr

/-- What running the `"newNotification"` listener produces: the store
afterwards, how many times `repo.save` was called, the console lines
printed, and the unhandled rejection of the async callback, if any. -/
structure WriterOutcome where
  store : StoreState
  saveCalls : Nat
  log : List String
  rejection : Option StoreError
deriving DecidableEq, Repr

/-- Display of a value inside the template literal of the log line. -/
def jsDisplay : JsValue → String
  | .null => "null"
  | .bool true => "true"
  | .bool false => "false"
  | .num n => toString n
  | .str s => s
  | .obj => "[object Object]"

/-- The `"newNotification"` listener (`src/events/notification.event.ts`):
builds a fresh `Notification`, sets `message` and `type` from the
payload, and awaits a single `repo.save`. On success it logs; on
failure nothing catches the error, so the callback rejects. `saveOk`
is the environment's verdict on the one insert attempt. -/
def onNewNotification (st : StoreState) (message ty : JsValue) (now : Nat)
    (saveOk : Bool) : WriterOutcome :=
  if saveOk then
    { store := save st message ty now
      saveCalls := 1
      log := ["Notification saved: " ++ jsDisplay message ++ " (" ++ jsDisplay ty ++ ")"]
      rejection := none }
  else
    { store := st
      saveCalls := 1
      log := []
      rejection := some .saveFailed }

/-- Outcome of one `POST /api/notifications` request end to end. -/
structure RequestOutcome where
  response : HttpResponse
  store : StoreState
  saveCalls : Nat
  rejection : Option StoreError
deriving DecidableEq, Repr

/-- One request through the whole pipeline: the controller runs, and if
it emitted the event, the listener runs against the store. The response
is the one the controller computed, sent before the insert settles. -/
def handleRequest (req : ReqBody) (st : StoreState) (now : Nat)
    (saveOk : Bool) : RequestOutcome :=
  let hr := createNotification req
  match hr.emitted with
  | none =>
      { response := hr.response, store := st, saveCalls := 0, rejection := none }
  | some (m, t) =>
      let w := onNewNotification st m t now saveOk
      { response := hr.response, store := w.store
        saveCalls := w.saveCalls, rejection := w.rejection }

/-- A whole execution: requests processed in order, each with its own
arrival time and insert verdict, threading the store through. -/
def runRequests (st : StoreState) : List (ReqBody × Nat × Bool) → StoreState
  | [] => st
  | (req, now, ok) :: rest => runRequests (handleRequest req st now ok).store rest

/-- Observable effects of `startServer` (`src/server.ts`): whether
`app.listen` ran, what was logged, whether the process exited, and how
many times `AppDataSource.initialize` was attempted. -/
structure ServerBoot where
  listenerStarted : Bool
  log : List String
  processExited : Bool
  initAttempts : Nat
deriving DecidableEq, Repr

/-- `startServer`: one `await AppDataSource.initialize()` inside
`try/catch`; on success it logs and starts the listener, on failure it
logs the error and does nothing else — no exit, no retry. -/
def startServer (initOk : Bool) : ServerBoot :=
  if initOk then
    { listenerStarted := true
      log := ["Database connected successfully", "Server running on port"]
      processExited := false
      initAttempts := 1 }
  else
    { listenerStarted := false
      log := ["Error starting server:"]
      processExited := false
      initAttempts := 1 }

end EventDriven

namespace EventDriven

/-! ## Helper lemmas -/

/-- The response of a full request is exactly the one the controller
computed; the writer never touches it. -/
theorem handleRequest_response_eq (req : ReqBody) (st : StoreState) (now : Nat)
    (ok : Bool) :
    (handleRequest req st now ok).response = (createNotification req).response := by
  unfold handleRequest
  rcases h : (createNotification req).emitted with _ | ⟨m, t⟩ <;> simp [h]

/-- If the controller emitted a payload, it took the 201 branch and the
payload is exactly the request's field values. -/
theorem createNotification_emitted_some (req : ReqBody) (m t : JsValue)
    (h : (createNotification req).emitted = some (m, t)) :
    createNotification req
      = ⟨⟨201, .message "Notification event triggered"⟩, some (m, t)⟩ := by
  rcases req with ⟨msg, ty⟩
  rcases msg with _ | mv <;> rcases ty with _ | tv
  · simp [createNotification] at h
  · simp [createNotification] at h
  · simp [createNotification] at h
  · by_cases hc : (truthy mv && truthy tv) = true
    · simp [createNotification, hc] at h ⊢
      exact h
    · simp [createNotification, hc] at h

/-- One request either leaves the rows unchanged, or appends exactly one
freshly built row whose payload fields are truthy. -/
theorem handleRequest_store_rows (req : ReqBody) (st : StoreState) (now : Nat)
    (ok : Bool) :
    (handleRequest req st now ok).store.rows = st.rows
  ∨ ∃ m t, truthy m = true ∧ truthy t = true ∧
      (handleRequest req st now ok).store.rows
        = st.rows ++ [{ id := st.nextId, message := m, type := t, createdAt := now }] := by
  rcases req with ⟨msg, ty⟩
  rcases msg with _ | mv <;> rcases ty with _ | tv
  · left; rfl
  · left; rfl
  · left; rfl
  · by_cases hm : truthy mv = true
    · by_cases ht : truthy tv = true
      · cases ok
        · left
          simp [handleRequest, createNotification, onNewNotification, hm, ht]
        · right
          exact ⟨mv, tv, hm, ht, by
            simp [handleRequest, createNotification, onNewNotification, save, hm, ht]⟩
      · left; simp [handleRequest, createNotification, hm, ht]
    · left; simp [handleRequest, createNotification, hm]

/-- Truthiness of payload fields is an invariant of every execution. -/
theorem runRequests_wellFormed (reqs : List (ReqBody × Nat × Bool)) (st : StoreState)
    (hst : ∀ r ∈ st.rows, truthy r.message = true ∧ truthy r.type = true) :
    ∀ r ∈ (runRequests st reqs).rows, truthy r.message = true ∧ truthy r.type = true := by
  induction reqs generalizing st with
  | nil => exact hst
  | cons p rest ih =>
    rcases p with ⟨req, now, ok⟩
    apply ih
    intro r hr
    rcases handleRequest_store_rows req st now ok with heq | ⟨m, t, hm2, ht2, heq⟩
    · exact hst r (heq ▸ hr)
    · rw [heq] at hr
      rcases List.mem_append.mp hr with h1 | h2
      · exact hst r h1
      · simp only [List.mem_singleton] at h2
        subst h2
        exact ⟨hm2, ht2⟩

end EventDriven

namespace EventDriven

/-! ## Claim theorems -/

/-- C1: every request whose `message` or `type` is absent or the empty
string gets status 400 with body `error = "Message and type are
required"`, no event is emitted, no save is issued, and the store is
unchanged. -/
theorem missing_or_empty_field_rejected (req : ReqBody) (st : StoreState)
    (now : Nat) (ok : Bool)
    (h : req.message = none ∨ req.message = some (.str "")
       ∨ req.type = none ∨ req.type = some (.str "")) :
    (handleRequest req st now ok).response
        = ⟨400, .error "Message and type are required"⟩
  ∧ (createNotification req).emitted = none
  ∧ (handleRequest req st now ok).store = st
  ∧ (handleRequest req st now ok).saveCalls = 0 := by
  have hc : createNotification req
      = ⟨⟨400, .error "Message and type are required"⟩, none⟩ := by
    rcases req with ⟨msg, ty⟩
    simp only at h
    rcases h with h | h | h | h <;> subst h
    · cases ty <;> simp [createNotification]
    · cases ty <;> simp [createNotification, truthy]
    · cases msg <;> simp [createNotification]
    · cases msg <;> simp [createNotification, truthy]
  have hr : handleRequest req st now ok =
      { response := ⟨400, .error "Message and type are required"⟩
        store := st, saveCalls := 0, rejection := none } := by
    unfold handleRequest
    rw [hc]
  exact ⟨by rw [hr], by rw [hc], by rw [hr], by rw [hr]⟩

/-- C1 witness: a concrete request with `message` absent. -/
theorem missing_or_empty_field_rejected_witness :
    (handleRequest ⟨none, some (.str "INFO")⟩ ⟨[], 0⟩ 7 true).response
        = ⟨400, .error "Message and type are required"⟩
  ∧ (createNotification ⟨none, some (.str "INFO")⟩).emitted = none
  ∧ (handleRequest ⟨none, some (.str "INFO")⟩ ⟨[], 0⟩ 7 true).store = ⟨[], 0⟩
  ∧ (handleRequest ⟨none, some (.str "INFO")⟩ ⟨[], 0⟩ 7 true).saveCalls = 0 :=
  missing_or_empty_field_rejected _ _ _ _ (Or.inl rfl)

/-- C2: every request with both fields present as non-empty strings gets
status 201 with the fixed acknowledgement body, for every store state
and whether or not the later insert succeeds. -/
theorem valid_request_acknowledged_independent_of_store (req : ReqBody)
    (m t : String) (hm : req.message = some (.str m)) (ht : req.type = some (.str t))
    (hm0 : m ≠ "") (ht0 : t ≠ "") (st : StoreState) (now : Nat) (ok : Bool) :
    (handleRequest req st now ok).response
      = ⟨201, .message "Notification event triggered"⟩ := by
  rw [handleRequest_response_eq]
  rcases req with ⟨msg, ty⟩
  simp only at hm ht
  subst hm; subst ht
  simp [createNotification, truthy, hm0, ht0]

/-- C2 witness: the spec's example request, with the store write failing. -/
theorem valid_request_acknowledged_independent_of_store_witness :
    (handleRequest ⟨some (.str "User logged in"), some (.str "INFO")⟩
        ⟨[], 0⟩ 7 false).response
      = ⟨201, .message "Notification event triggered"⟩ :=
  valid_request_acknowledged_independent_of_store _ "User logged in" "INFO"
    rfl rfl (by decide) (by decide) _ _ _

/-- C3: for every request the controller accepts with payload `(m, t)`,
a successful run persists exactly one new row, appended to the store,
with `message` and `type` equal to the payload unchanged and `id` and
`createdAt` assigned by the store, via exactly one save call. -/
theorem writer_persists_exactly_payload (req : ReqBody) (st : StoreState)
    (now : Nat) (m t : JsValue)
    (h : (createNotification req).emitted = some (m, t)) :
    (handleRequest req st now true).response.status = 201
  ∧ (handleRequest req st now true).store.rows
      = st.rows ++ [{ id := st.nextId, message := m, type := t, createdAt := now }]
  ∧ (handleRequest req st now true).saveCalls = 1 := by
  have hc := createNotification_emitted_some req m t h
  have hr : handleRequest req st now true =
      { response := ⟨201, .message "Notification event triggered"⟩
        store := save st m t now, saveCalls := 1, rejection := none } := by
    unfold handleRequest
    rw [hc]
    rfl
  exact ⟨by rw [hr], by rw [hr]; rfl, by rw [hr]⟩

/-- C3 witness: the spec's example payload persisted into an empty store. -/
theorem writer_persists_exactly_payload_witness :
    (handleRequest ⟨some (.str "User logged in"), some (.str "INFO")⟩
        ⟨[], 0⟩ 7 true).response.status = 201
  ∧ (handleRequest ⟨some (.str "User logged in"), some (.str "INFO")⟩
        ⟨[], 0⟩ 7 true).store.rows
      = [] ++ [{ id := 0, message := .str "User logged in", type := .str "INFO"
                 createdAt := 7 }]
  ∧ (handleRequest ⟨some (.str "User logged in"), some (.str "INFO")⟩
        ⟨[], 0⟩ 7 true).saveCalls = 1 :=
  writer_persists_exactly_payload _ ⟨[], 0⟩ 7 (.str "User logged in") (.str "INFO")
    (by decide)

/-- C4: when the one save call fails, the failure surfaces as the
callback's unhandled rejection, the already-computed HTTP response is
the same as in the success case, the store is unchanged, and no second
save is attempted. -/
theorem writer_failure_uncaught_no_retry (req : ReqBody) (st : StoreState)
    (now : Nat) (m t : JsValue)
    (h : (createNotification req).emitted = some (m, t)) :
    (handleRequest req st now false).response = (handleRequest req st now true).response
  ∧ (handleRequest req st now false).rejection = some .saveFailed
  ∧ (handleRequest req st now false).store = st
  ∧ (handleRequest req st now false).saveCalls = 1 := by
  have hc := createNotification_emitted_some req m t h
  have hf : handleRequest req st now false =
      { response := ⟨201, .message "Notification event triggered"⟩
        store := st, saveCalls := 1, rejection := some .saveFailed } := by
    unfold handleRequest
    rw [hc]
    rfl
  refine ⟨?_, by rw [hf], by rw [hf], by rw [hf]⟩
  rw [handleRequest_response_eq, handleRequest_response_eq]

/-- C4 witness: a concrete valid request whose insert fails. -/
theorem writer_failure_uncaught_no_retry_witness :
    (handleRequest ⟨some (.str "hi"), some (.str "INFO")⟩ ⟨[], 3⟩ 7 false).response
      = (handleRequest ⟨some (.str "hi"), some (.str "INFO")⟩ ⟨[], 3⟩ 7 true).response
  ∧ (handleRequest ⟨some (.str "hi"), some (.str "INFO")⟩ ⟨[], 3⟩ 7 false).rejection
      = some .saveFailed
  ∧ (handleRequest ⟨some (.str "hi"), some (.str "INFO")⟩ ⟨[], 3⟩ 7 false).store
      = ⟨[], 3⟩
  ∧ (handleRequest ⟨some (.str "hi"), some (.str "INFO")⟩ ⟨[], 3⟩ 7 false).saveCalls
      = 1 :=
  writer_failure_uncaught_no_retry _ _ 7 (.str "hi") (.str "INFO") (by decide)

/-- C5: every record ever persisted by the system (any execution from an
empty store) has truthy `message` and `type`; in particular neither is
the empty string. -/
theorem persisted_records_nonempty (reqs : List (ReqBody × Nat × Bool))
    (r : Notification) (h : r ∈ (runRequests ⟨[], 0⟩ reqs).rows) :
    truthy r.message = true ∧ truthy r.type = true
  ∧ r.message ≠ .str "" ∧ r.type ≠ .str "" := by
  have hw := runRequests_wellFormed reqs ⟨[], 0⟩ (by intro r hr; simp at hr) r h
  obtain ⟨h1, h2⟩ := hw
  refine ⟨h1, h2, ?_, ?_⟩
  · intro he; rw [he] at h1; simp [truthy] at h1
  · intro he; rw [he] at h2; simp [truthy] at h2

/-- C5 witness: the row created by one concrete valid request. -/
theorem persisted_records_nonempty_witness :
    truthy (JsValue.str "hi") = true ∧ truthy (JsValue.str "INFO") = true
  ∧ JsValue.str "hi" ≠ .str "" ∧ JsValue.str "INFO" ≠ .str "" := by
  have h := persisted_records_nonempty
    [(⟨some (.str "hi"), some (.str "INFO")⟩, 5, true)]
    { id := 0, message := .str "hi", type := .str "INFO", createdAt := 5 }
    (by decide)
  exact h

/-- C6: submitting the same non-empty `(message, type)` pair twice, both
inserts succeeding, appends two separate rows with the same payload and
distinct `id` values — persistence is not idempotent. -/
theorem duplicate_requests_two_records (m t : String) (hm : m ≠ "") (ht : t ≠ "")
    (st : StoreState) (n1 n2 : Nat) :
    (handleRequest ⟨some (.str m), some (.str t)⟩
        (handleRequest ⟨some (.str m), some (.str t)⟩ st n1 true).store
        n2 true).store.rows
      = st.rows
        ++ [{ id := st.nextId, message := .str m, type := .str t, createdAt := n1 },
            { id := st.nextId + 1, message := .str m, type := .str t, createdAt := n2 }]
  ∧ st.nextId ≠ st.nextId + 1 := by
  constructor
  · simp [handleRequest, createNotification, onNewNotification, save, truthy, hm, ht]
  · omega

/-- C6 witness: the same pair submitted twice into an empty store. -/
theorem duplicate_requests_two_records_witness :
    (handleRequest ⟨some (.str "ping"), some (.str "INFO")⟩
        (handleRequest ⟨some (.str "ping"), some (.str "INFO")⟩ ⟨[], 0⟩ 1 true).store
        2 true).store.rows
      = []
        ++ [{ id := 0, message := .str "ping", type := .str "INFO", createdAt := 1 },
            { id := 0 + 1, message := .str "ping", type := .str "INFO", createdAt := 2 }]
  ∧ (0 : Nat) ≠ 0 + 1 :=
  duplicate_requests_two_records "ping" "INFO" (by decide) (by decide) ⟨[], 0⟩ 1 2

/-- C7: when store initialization fails, the listener never starts, the
error is logged, and the process neither exits nor retries; and the
listener is started exactly when initialization succeeded. -/
theorem startup_failure_no_listener_no_exit_no_retry (initOk : Bool)
    (h : initOk = false) :
    startServer initOk
      = { listenerStarted := false, log := ["Error starting server:"]
          processExited := false, initAttempts := 1 }
  ∧ ∀ b : Bool, (startServer b).listenerStarted = b := by
  subst h
  refine ⟨rfl, ?_⟩
  intro b
  cases b <;> rfl

/-- C7 witness: the failing-initialization case evaluated concretely. -/
theorem startup_failure_no_listener_no_exit_no_retry_witness :
    startServer false
      = { listenerStarted := false, log := ["Error starting server:"]
          processExited := false, initAttempts := 1 }
  ∧ ∀ b : Bool, (startServer b).listenerStarted = b :=
  startup_failure_no_listener_no_exit_no_retry false rfl

/-- C8: the store is append-only — any execution leaves every previously
persisted row in place, only ever appending a suffix of new rows. -/
theorem store_append_only (reqs : List (ReqBody × Nat × Bool)) (st : StoreState) :
    ∃ suffix, (runRequests st reqs).rows = st.rows ++ suffix := by
  induction reqs generalizing st with
  | nil => exact ⟨[], by simp [runRequests]⟩
  | cons p rest ih =>
    rcases p with ⟨req, now, ok⟩
    rcases handleRequest_store_rows req st now ok with heq | ⟨m, t, _, _, heq⟩
    · obtain ⟨s, hs⟩ := ih (handleRequest req st now ok).store
      refine ⟨s, ?_⟩
      show (runRequests (handleRequest req st now ok).store rest).rows = st.rows ++ s
      rw [hs, heq]
    · obtain ⟨s, hs⟩ := ih (handleRequest req st now ok).store
      refine ⟨{ id := st.nextId, message := m, type := t, createdAt := now } :: s, ?_⟩
      show (runRequests (handleRequest req st now ok).store rest).rows
        = st.rows ++ ({ id := st.nextId, message := m, type := t, createdAt := now } :: s)
      rw [hs, heq]
      simp

/-- C9: the controller's check is JavaScript falsiness — each falsy field
value (absent, null, false, 0, "") forces the 400 rejection, while any
truthy pair of values, string or not, passes and is forwarded to the
writer unconverted. -/
theorem handler_check_is_falsiness (req : ReqBody) :
    ((req.message = none ∨ req.message = some .null
        ∨ req.message = some (.bool false) ∨ req.message = some (.num 0)
        ∨ req.message = some (.str "")
      ∨ req.type = none ∨ req.type = some .null
        ∨ req.type = some (.bool false) ∨ req.type = some (.num 0)
        ∨ req.type = some (.str "")) →
      createNotification req
        = ⟨⟨400, .error "Message and type are required"⟩, none⟩)
  ∧ (∀ m t : JsValue, req.message = some m → req.type = some t →
      truthy m = true → truthy t = true →
      createNotification req
        = ⟨⟨201, .message "Notification event triggered"⟩, some (m, t)⟩) := by
  constructor
  · intro h
    rcases req with ⟨msg, ty⟩
    simp only at h
    rcases msg with _ | mv <;> rcases ty with _ | tv
    · rfl
    · rfl
    · rfl
    · have hf : truthy mv = false ∨ truthy tv = false := by
        rcases h with h|h|h|h|h|h|h|h|h|h <;>
          first
          | (left; rw [Option.some.injEq] at h; subst h; simp [truthy]; done)
          | (right; rw [Option.some.injEq] at h; subst h; simp [truthy]; done)
          | simp at h
      rcases hf with hf | hf <;> simp [createNotification, hf]
  · intro m t hm2 ht2 htm htt
    rcases req with ⟨msg, ty⟩
    simp only at hm2 ht2
    subst hm2; subst ht2
    simp [createNotification, htm, htt]

/-- C9 witness: `message = 0` is rejected; `message = 42, type = {}` is
accepted with the values forwarded unconverted. -/
theorem handler_check_is_falsiness_witness :
    createNotification ⟨some (.num 0), some (.str "INFO")⟩
      = ⟨⟨400, .error "Message and type are required"⟩, none⟩
  ∧ createNotification ⟨some (.num 42), some .obj⟩
      = ⟨⟨201, .message "Notification event triggered"⟩, some (.num 42, .obj)⟩ :=
  ⟨(handler_check_is_falsiness _).1 (Or.inr (Or.inr (Or.inr (Or.inl rfl)))),
   (handler_check_is_falsiness _).2 (.num 42) .obj rfl rfl rfl rfl⟩

/-- C10: the HTTP response is a function of the request body alone —
identical bodies get identical responses whatever the store state, the
request time, or the fate of the insert. -/
theorem response_depends_only_on_body (req : ReqBody) (st1 st2 : StoreState)
    (n1 n2 : Nat) (ok1 ok2 : Bool) :
    (handleRequest req st1 n1 ok1).response = (handleRequest req st2 n2 ok2).response := by
  rw [handleRequest_response_eq, handleRequest_response_eq]

end EventDriven
